import Mathlib

/-!
# Verification of the `BISTModel` facade (`nlp_architect/models/bist_parser.py`)

A shallow embedding of the `BISTModel` class.  Python attribute stores,
duck-typing guards (`isinstance`, truthiness, `hasattr(_, '__iter__')`),
the JSON (de)serialization used for `params.json`, the posix path
manipulation (`os.path.dirname`, `os.path.join`, `str.rindex`) and the
observable effects of each public method (calls into the external
collaborators `utils.vocab`, `utils.write_conll`, `utils.run_eval`,
`MSTParserLSTM`, file writes, unhandled exceptions) are modelled
explicitly.  External collaborators are opaque: they are parameters of
the semantics (an `Env` of deterministic functions), and only the events
of calling them are tracked.
-/

mutual

/-- Model of a Python value, as far as the facade's guards and data flow
can observe one: `PyVal.none` is Python `None`; booleans, integers and
strings are primitives (`bool` is a subtype of `int` in Python, which
`isinstance(_, int)` reflects); lists, tuples and string-keyed dicts
cover the container values the facade manipulates (the params tuple and
the options dict). -/
inductive PyVal where
  | none
  | bool (b : Bool)
  | int (n : Int)
  | str (s : String)
  | list (xs : PyList)
  | tuple (xs : PyList)
  | dict (kvs : PyDict)

/-- A Python list/tuple payload (mutual with `PyVal`). -/
inductive PyList where
  | nil
  | cons (x : PyVal) (xs : PyList)

/-- A Python dict payload with string keys (mutual with `PyVal`). -/
inductive PyDict where
  | nil
  | cons (k : String) (v : PyVal) (kvs : PyDict)

end

mutual

def PyVal.decEq : (a b : PyVal) → Decidable (a = b)
  | .none, .none => isTrue rfl
  | .bool a, .bool b =>
    match decEq a b with
    | isTrue h => isTrue (h ▸ rfl)
    | isFalse h => isFalse (fun hh => h (PyVal.bool.inj hh))
  | .int a, .int b =>
    match decEq a b with
    | isTrue h => isTrue (h ▸ rfl)
    | isFalse h => isFalse (fun hh => h (PyVal.int.inj hh))
  | .str a, .str b =>
    match decEq a b with
    | isTrue h => isTrue (h ▸ rfl)
    | isFalse h => isFalse (fun hh => h (PyVal.str.inj hh))
  | .list a, .list b =>
    match PyList.decEq a b with
    | isTrue h => isTrue (h ▸ rfl)
    | isFalse h => isFalse (fun hh => h (PyVal.list.inj hh))
  | .tuple a, .tuple b =>
    match PyList.decEq a b with
    | isTrue h => isTrue (h ▸ rfl)
    | isFalse h => isFalse (fun hh => h (PyVal.tuple.inj hh))
  | .dict a, .dict b =>
    match PyDict.decEq a b with
    | isTrue h => isTrue (h ▸ rfl)
    | isFalse h => isFalse (fun hh => h (PyVal.dict.inj hh))
  | .none, .bool _ | .none, .int _ | .none, .str _ | .none, .list _
  | .none, .tuple _ | .none, .dict _ => isFalse (by intro h; cases h)
  | .bool _, .none | .bool _, .int _ | .bool _, .str _ | .bool _, .list _
  | .bool _, .tuple _ | .bool _, .dict _ => isFalse (by intro h; cases h)
  | .int _, .none | .int _, .bool _ | .int _, .str _ | .int _, .list _
  | .int _, .tuple _ | .int _, .dict _ => isFalse (by intro h; cases h)
  | .str _, .none | .str _, .bool _ | .str _, .int _ | .str _, .list _
  | .str _, .tuple _ | .str _, .dict _ => isFalse (by intro h; cases h)
  | .list _, .none | .list _, .bool _ | .list _, .int _ | .list _, .str _
  | .list _, .tuple _ | .list _, .dict _ => isFalse (by intro h; cases h)
  | .tuple _, .none | .tuple _, .bool _ | .tuple _, .int _ | .tuple _, .str _
  | .tuple _, .list _ | .tuple _, .dict _ => isFalse (by intro h; cases h)
  | .dict _, .none | .dict _, .bool _ | .dict _, .int _ | .dict _, .str _
  | .dict _, .list _ | .dict _, .tuple _ => isFalse (by intro h; cases h)

def PyList.decEq : (a b : PyList) → Decidable (a = b)
  | .nil, .nil => isTrue rfl
  | .cons x xs, .cons y ys =>
    match PyVal.decEq x y, PyList.decEq xs ys with
    | isTrue h1, isTrue h2 => isTrue (h1 ▸ h2 ▸ rfl)
    | isFalse h1, _ => isFalse (fun hh => h1 (PyList.cons.inj hh).1)
    | _, isFalse h2 => isFalse (fun hh => h2 (PyList.cons.inj hh).2)
  | .nil, .cons _ _ => isFalse (by intro h; cases h)
  | .cons _ _, .nil => isFalse (by intro h; cases h)

def PyDict.decEq : (a b : PyDict) → Decidable (a = b)
  | .nil, .nil => isTrue rfl
  | .cons k v kvs, .cons k' v' kvs' =>
    match decEq k k', PyVal.decEq v v', PyDict.decEq kvs kvs' with
    | isTrue h1, isTrue h2, isTrue h3 => isTrue (h1 ▸ h2 ▸ h3 ▸ rfl)
    | isFalse h1, _, _ => isFalse (fun hh => h1 (PyDict.cons.inj hh).1)
    | _, isFalse h2, _ => isFalse (fun hh => h2 (PyDict.cons.inj hh).2.1)
    | _, _, isFalse h3 => isFalse (fun hh => h3 (PyDict.cons.inj hh).2.2)
  | .nil, .cons _ _ _ => isFalse (by intro h; cases h)
  | .cons _ _ _, .nil => isFalse (by intro h; cases h)

end

instance : DecidableEq PyVal := PyVal.decEq
instance : DecidableEq PyList := PyList.decEq
instance : DecidableEq PyDict := PyDict.decEq

/-- `isinstance(v, str)`. -/
def PyVal.isStr : PyVal → Bool
  | .str _ => true
  | _ => false

/-- `isinstance(v, int)`.  Python's `bool` is a subclass of `int`, so
booleans pass this check. -/
def PyVal.isInt : PyVal → Bool
  | .int _ => true
  | .bool _ => true
  | _ => false

/-- The underlying string of a string value (junk on other values; only
used under an `isStr` guard). -/
def PyVal.asStr : PyVal → String
  | .str s => s
  | _ => ""

/-- The underlying integer of an int value (`True` is `1`, `False` is
`0`; junk on other values; only used under an `isInt` guard). -/
def PyVal.asInt : PyVal → Int
  | .int n => n
  | .bool b => if b then 1 else 0
  | _ => 0

/-- Python truthiness (`bool(v)`): `None`, `False`, `0`, `''` and empty
containers are falsy. -/
def PyVal.truthy : PyVal → Bool
  | .none => false
  | .bool b => b
  | .int n => n != 0
  | .str s => s.data != []
  | .list .nil => false
  | .list (.cons _ _) => true
  | .tuple .nil => false
  | .tuple (.cons _ _) => true
  | .dict .nil => false
  | .dict (.cons _ _ _) => true

/-- `hasattr(v, '__iter__')`: strings, lists, tuples and dicts are
iterable; `None`, booleans and integers are not. -/
def PyVal.isIterable : PyVal → Bool
  | .str _ => true
  | .list _ => true
  | .tuple _ => true
  | .dict _ => true
  | _ => false

/-- Build a Python list value from a Lean list. -/
def PyVal.ofList (xs : List PyVal) : PyVal :=
  .list (xs.foldr PyList.cons PyList.nil)

/-- Number of elements of a Python list/tuple payload. -/
def PyList.length : PyList → Nat
  | .nil => 0
  | .cons _ xs => xs.length + 1

mutual

/-- Model of a JSON document as written/read by `json.dump`/`json.load`
into `params.json`. -/
inductive Json where
  | null
  | bool (b : Bool)
  | int (n : Int)
  | str (s : String)
  | arr (xs : JList)
  | obj (kvs : JDict)

/-- A JSON array payload (mutual with `Json`). -/
inductive JList where
  | nil
  | cons (x : Json) (xs : JList)

/-- A JSON object payload (mutual with `Json`). -/
inductive JDict where
  | nil
  | cons (k : String) (v : Json) (kvs : JDict)

end

mutual

def Json.decEq : (a b : Json) → Decidable (a = b)
  | .null, .null => isTrue rfl
  | .bool a, .bool b =>
    match decEq a b with
    | isTrue h => isTrue (h ▸ rfl)
    | isFalse h => isFalse (fun hh => h (Json.bool.inj hh))
  | .int a, .int b =>
    match decEq a b with
    | isTrue h => isTrue (h ▸ rfl)
    | isFalse h => isFalse (fun hh => h (Json.int.inj hh))
  | .str a, .str b =>
    match decEq a b with
    | isTrue h => isTrue (h ▸ rfl)
    | isFalse h => isFalse (fun hh => h (Json.str.inj hh))
  | .arr a, .arr b =>
    match JList.decEq a b with
    | isTrue h => isTrue (h ▸ rfl)
    | isFalse h => isFalse (fun hh => h (Json.arr.inj hh))
  | .obj a, .obj b =>
    match JDict.decEq a b with
    | isTrue h => isTrue (h ▸ rfl)
    | isFalse h => isFalse (fun hh => h (Json.obj.inj hh))
  | .null, .bool _ | .null, .int _ | .null, .str _ | .null, .arr _
  | .null, .obj _ => isFalse (by intro h; cases h)
  | .bool _, .null | .bool _, .int _ | .bool _, .str _ | .bool _, .arr _
  | .bool _, .obj _ => isFalse (by intro h; cases h)
  | .int _, .null | .int _, .bool _ | .int _, .str _ | .int _, .arr _
  | .int _, .obj _ => isFalse (by intro h; cases h)
  | .str _, .null | .str _, .bool _ | .str _, .int _ | .str _, .arr _
  | .str _, .obj _ => isFalse (by intro h; cases h)
  | .arr _, .null | .arr _, .bool _ | .arr _, .int _ | .arr _, .str _
  | .arr _, .obj _ => isFalse (by intro h; cases h)
  | .obj _, .null | .obj _, .bool _ | .obj _, .int _ | .obj _, .str _
  | .obj _, .arr _ => isFalse (by intro h; cases h)

def JList.decEq : (a b : JList) → Decidable (a = b)
  | .nil, .nil => isTrue rfl
  | .cons x xs, .cons y ys =>
    match Json.decEq x y, JList.decEq xs ys with
    | isTrue h1, isTrue h2 => isTrue (h1 ▸ h2 ▸ rfl)
    | isFalse h1, _ => isFalse (fun hh => h1 (JList.cons.inj hh).1)
    | _, isFalse h2 => isFalse (fun hh => h2 (JList.cons.inj hh).2)
  | .nil, .cons _ _ => isFalse (by intro h; cases h)
  | .cons _ _, .nil => isFalse (by intro h; cases h)

def JDict.decEq : (a b : JDict) → Decidable (a = b)
  | .nil, .nil => isTrue rfl
  | .cons k v kvs, .cons k' v' kvs' =>
    match decEq k k', Json.decEq v v', JDict.decEq kvs kvs' with
    | isTrue h1, isTrue h2, isTrue h3 => isTrue (h1 ▸ h2 ▸ h3 ▸ rfl)
    | isFalse h1, _, _ => isFalse (fun hh => h1 (JDict.cons.inj hh).1)
    | _, isFalse h2, _ => isFalse (fun hh => h2 (JDict.cons.inj hh).2.1)
    | _, _, isFalse h3 => isFalse (fun hh => h3 (JDict.cons.inj hh).2.2)
  | .nil, .cons _ _ _ => isFalse (by intro h; cases h)
  | .cons _ _ _, .nil => isFalse (by intro h; cases h)

end

instance : DecidableEq Json := Json.decEq
instance : DecidableEq JList := JList.decEq
instance : DecidableEq JDict := JDict.decEq

mutual

/-- `json.dump`: serialize a Python value.  Tuples and lists both become
JSON arrays; dict keys are already strings here. -/
def pyToJson : PyVal → Json
  | .none => .null
  | .bool b => .bool b
  | .int n => .int n
  | .str s => .str s
  | .list xs => .arr (pyListToJson xs)
  | .tuple xs => .arr (pyListToJson xs)
  | .dict kvs => .obj (pyDictToJson kvs)

def pyListToJson : PyList → JList
  | .nil => .nil
  | .cons x xs => .cons (pyToJson x) (pyListToJson xs)

def pyDictToJson : PyDict → JDict
  | .nil => .nil
  | .cons k v kvs => .cons k (pyToJson v) (pyDictToJson kvs)

end

mutual

/-- `json.load`: deserialize a JSON document to a Python value.  JSON
arrays come back as Python lists (never tuples). -/
def jsonToPy : Json → PyVal
  | .null => .none
  | .bool b => .bool b
  | .int n => .int n
  | .str s => .str s
  | .arr xs => .list (jListToPy xs)
  | .obj kvs => .dict (jDictToPy kvs)

def jListToPy : JList → PyList
  | .nil => .nil
  | .cons x xs => .cons (jsonToPy x) (jListToPy xs)

def jDictToPy : JDict → PyDict
  | .nil => .nil
  | .cons k v kvs => .cons k (jsonToPy v) (jDictToPy kvs)

end

mutual

/-- JSON-normalization of a Python value: the value it becomes after one
serialize/deserialize round-trip (every tuple, at any depth, becomes a
list; everything else is unchanged).  Two bundles are "equivalent" when
their normalizations agree. -/
def pyNorm : PyVal → PyVal
  | .none => .none
  | .bool b => .bool b
  | .int n => .int n
  | .str s => .str s
  | .list xs => .list (pyListNorm xs)
  | .tuple xs => .list (pyListNorm xs)
  | .dict kvs => .dict (pyDictNorm kvs)

def pyListNorm : PyList → PyList
  | .nil => .nil
  | .cons x xs => .cons (pyNorm x) (pyListNorm xs)

def pyDictNorm : PyDict → PyDict
  | .nil => .nil
  | .cons k v kvs => .cons k (pyNorm v) (pyDictNorm kvs)

end

/-- Equivalence of parameter bundles modulo the JSON round-trip
(tuple/list distinction erased at every depth). -/
def pyEquiv (a b : PyVal) : Prop := pyNorm a = pyNorm b

/-! ## Path manipulation (`os.path` / `str.rindex`) -/

/-- Index of the last occurrence of `c`, if any (`str.rfind` on a
single-character needle, as a position). -/
def lastIdxOf (c : Char) : List Char → Option Nat
  | [] => Option.none
  | a :: rest =>
    match lastIdxOf c rest with
    | Option.some i => Option.some (i + 1)
    | Option.none => if a = c then Option.some 0 else Option.none

/-- `s.rindex('.')` as an option: `Option.none` models the `ValueError`
Python raises when no dot occurs. -/
def rindexDot (s : String) : Option Nat := lastIdxOf '.' s.data

/-- `s[:i] + ins + s[i:]` — splice a string in before position `i`
(Python slicing is by character). -/
def spliceAt (s : String) (i : Nat) (ins : String) : String :=
  String.mk (s.data.take i) ++ ins ++ String.mk (s.data.drop i)

/-- Drop trailing `'/'` characters (`str.rstrip('/')`). -/
def rstripSlash (cs : List Char) : List Char :=
  (cs.reverse.dropWhile (fun c => c = '/')).reverse

/-- `os.path.dirname` on posix: everything up to and including the last
`'/'`, with trailing slashes stripped unless the head is all slashes;
`""` when there is no slash. -/
def dirname (p : String) : String :=
  match lastIdxOf '/' p.data with
  | Option.none => ""
  | Option.some i =>
    let head := p.data.take (i + 1)
    if head.all (fun c => c = '/') then String.mk head
    else String.mk (rstripSlash head)

/-- `os.path.join a b` on posix for the shapes the facade uses (`b` is
the literal `"params.json"`). -/
def pathJoin (a b : String) : String :=
  if b.data.head? = Option.some '/' then b
  else if a.data = [] ∨ a.data.getLast? = Option.some '/' then a ++ b
  else a ++ "/" ++ b

/-! ## Facade state, filesystem, collaborators, effects -/

/-- The Python value held in the facade's `model` attribute: `None`
(as assigned by the constructor) or an `MSTParserLSTM` instance,
remembered by the argument bundle it was constructed from
(`MSTParserLSTM(*args)`). -/
inductive ModelV where
  | pynone
  | mst (args : PyVal)
deriving DecidableEq

/-- The attribute store of a `BISTModel` instance.  `Option.none` means
the attribute was never assigned (accessing it raises
`AttributeError`); `Option.some v` means the attribute holds the Python
value `v`.  A constructor whose guard fails assigns none of the three
attributes. -/
structure FState where
  options : Option PyVal
  params : Option PyVal
  model : Option ModelV
deriving DecidableEq

/-- The filesystem: existing files with, for text files holding JSON, a
parsed content (`Option.some j`); `Option.none` content models a file
whose contents are not JSON (weight files, CoNLL files, a truncated
file).  `dirs` lists the existing directories (`os.path.isdir`). -/
structure World where
  files : List (String × Option Json)
  dirs : List String
deriving DecidableEq

/-- Look a path up in a file list (first match wins: writes prepend). -/
def lookupFile : List (String × Option Json) → String → Option (Option Json)
  | [], _ => Option.none
  | kv :: rest, p => if kv.1 = p then Option.some kv.2 else lookupFile rest p

/-- Content of the file at `p`, if it exists. -/
def getFile (w : World) (p : String) : Option (Option Json) :=
  lookupFile w.files p

/-- `os.path.isfile`. -/
def isfile (w : World) (p : String) : Bool := (getFile w p).isSome

/-- `os.path.isdir`. -/
def isdir (w : World) (p : String) : Bool := w.dirs.contains p

/-- Create or overwrite the file at `p`. -/
def setFile (w : World) (p : String) (c : Option Json) : World :=
  { files := (p, c) :: w.files, dirs := w.dirs }

/-- The deterministic behaviour of the external collaborators the
facade calls but does not own: `utils.vocab` (derives the
words/w2i/pos/rels sets from a corpus file), the model's file-path and
in-memory prediction entry points, and the number of sentences in a
corpus file (`numSents` exists only to state the collaborator contract
that predictions come one per input sentence). -/
structure Env where
  vocab : String → PyVal × PyVal × PyVal × PyVal
  predFile : String → List PyVal
  predConll : PyVal → List PyVal
  numSents : String → Nat

/-- Observable events of one method call, in program order. -/
inductive Ev where
  | printed (s : String)
  | vocabCall (path : String)
  | newModel
  | train (path : String)
  | predictFile (path : String)
  | predictConll
  | writeConll (path : String)
  | runEval (gold : String) (pred : String)
  | openWrite (path : String)
  | jsonWrite (path : String) (content : Json)
  | jsonRead (path : String)
  | modelSave (path : String)
  | modelLoad (path : String)
deriving DecidableEq

/-- Unhandled Python exceptions the methods can raise. -/
inductive Fault where
  | attributeError
  | valueError
  | typeError
  | fileNotFound
deriving DecidableEq

/-! ## The `BISTModel` methods -/

/-- Modelled from the spec: `get_options_dict` (in
`nlp_architect.models.bist.utils`, not part of the supplied source)
builds the immutable configuration record
{activation, LSTM dimension, LSTM layer count, POS-embedding dimension}
from the constructor arguments.  The argument order matches the call
site `get_options_dict(activation, lstm_dims, lstm_layers, pos_dims)`. -/
def get_options_dict (activation : String) (lstm_dims lstm_layers pos_dims : Int) : PyVal :=
  .dict (.cons "activation" (.str activation)
    (.cons "lstm_dims" (.int lstm_dims)
      (.cons "lstm_layers" (.int lstm_layers)
        (.cons "pos_dims" (.int pos_dims) .nil))))

/-- `BISTModel.__init__`: if all four arguments pass the `isinstance`
guard, assign `options`, `params = None` and `model = None`; otherwise
assign nothing at all. -/
def BISTModel.init (activation lstm_layers lstm_dims pos_dims : PyVal) : FState :=
  if activation.isStr && lstm_layers.isInt && lstm_dims.isInt && pos_dims.isInt then
    { options := Option.some
        (get_options_dict activation.asStr lstm_dims.asInt lstm_layers.asInt pos_dims.asInt),
      params := Option.some PyVal.none,
      model := Option.some ModelV.pynone }
  else { options := Option.none, params := Option.none, model := Option.none }

/-- The per-epoch loop of `fit` (`for epoch in range(epochs)`): `k`
epochs remain and `e` epochs have already run.  Each iteration prints,
trains, and — when `dev` is truthy — derives the epoch's prediction
path with `dev.rindex('.')` (raising `ValueError` when `dev` has no
dot), writes the predictions there and runs the external evaluation. -/
def fitEpochLoop (env : Env) (ds : String) (dev : PyVal) (w : World) :
    Nat → Nat → World × List Ev × Option Fault
  | 0, _ => (w, [], Option.none)
  | k + 1, e =>
    let ev0 := [Ev.printed ("Starting epoch " ++ toString (e + 1)), Ev.train ds]
    if dev.truthy then
      match rindexDot dev.asStr with
      | Option.none => (w, ev0, Option.some Fault.valueError)
      | Option.some i =>
        let res_path := spliceAt dev.asStr i ("_epoch_" ++ toString (e + 1) ++ "_pred")
        let ev1 := ev0 ++ [Ev.predictFile dev.asStr, Ev.writeConll res_path,
          Ev.runEval dev.asStr res_path]
        let rest := fitEpochLoop env ds dev (setFile w res_path Option.none) k (e + 1)
        (rest.1, ev1 ++ rest.2.1, rest.2.2)
    else
      let rest := fitEpochLoop env ds dev w k (e + 1)
      (rest.1, ev0 ++ rest.2.1, rest.2.2)

/-- `BISTModel.fit`.  The guard is
`isinstance(dataset, str) and os.path.isfile(dataset) and
isinstance(epochs, int) and (not dev or isinstance(dev, str))`; when it
fails the method silently does nothing.  When it passes, `utils.vocab`
runs first, then the params tuple is rebuilt (reading `self.options`,
which raises `AttributeError` on a facade whose constructor guard
failed), a fresh `MSTParserLSTM` is bound, and the epoch loop runs
`max(epochs, 0)` times (`range` of a negative integer is empty).
The params tuple rebuilt by `fit` is
`words, w2i, pos, rels, self.options`, with the first four derived by
`utils.vocab` from the training file (`fitParams`). -/
def fitParams (env : Env) (ds : String) (opts : PyVal) : PyVal :=
  let v := env.vocab ds
  PyVal.tuple (.cons v.1 (.cons v.2.1 (.cons v.2.2.1
    (.cons v.2.2.2 (.cons opts .nil)))))

def BISTModel.fit (env : Env) (st : FState) (w : World)
    (dataset epochs dev : PyVal) : FState × World × List Ev × Option Fault :=
  if dataset.isStr && isfile w dataset.asStr && epochs.isInt
      && (!dev.truthy || dev.isStr) then
    let ds := dataset.asStr
    let ev0 := [Ev.printed ("\nRunning fit on " ++ ds ++ "...\n"), Ev.vocabCall ds]
    match st.options with
    | Option.none => (st, w, ev0, Option.some Fault.attributeError)
    | Option.some opts =>
      let params := fitParams env ds opts
      let st' : FState :=
        { options := st.options, params := Option.some params,
          model := Option.some (ModelV.mst params) }
      let lp := fitEpochLoop env ds dev w epochs.asInt.toNat 0
      (st', lp.1, ev0 ++ [Ev.newModel] ++ lp.2.1, lp.2.2)
  else (st, w, [], Option.none)

/-- `BISTModel.predict`.  `res = None`; under the guard
`isinstance(dataset, str) and os.path.isfile(dataset)` the underlying
model is invoked (raising `AttributeError` when the `model` attribute
is missing or still `None`), and with `evaluate=True` the prediction
file is written next to the dataset (`dataset.rindex('.')` raising
`ValueError` on a dotless path, after inference already ran).  The last
component is the returned Python value; it is `Option.none` exactly
when the call raises instead of returning. -/
def BISTModel.predict (env : Env) (st : FState) (w : World)
    (dataset : PyVal) (evaluate : Bool) :
    FState × World × List Ev × Option Fault × Option PyVal :=
  if dataset.isStr && isfile w dataset.asStr then
    let ds := dataset.asStr
    let ev0 := [Ev.printed ("\nRunning predict on " ++ ds ++ "...\n")]
    match st.model with
    | Option.none => (st, w, ev0, Option.some Fault.attributeError, Option.none)
    | Option.some ModelV.pynone => (st, w, ev0, Option.some Fault.attributeError, Option.none)
    | Option.some (ModelV.mst _) =>
      let res := env.predFile ds
      let ev1 := ev0 ++ [Ev.predictFile ds]
      if evaluate then
        match rindexDot ds with
        | Option.none => (st, w, ev1, Option.some Fault.valueError, Option.none)
        | Option.some i =>
          let pred_path := spliceAt ds i "_pred"
          (st, setFile w pred_path Option.none,
            ev1 ++ [Ev.writeConll pred_path, Ev.runEval ds pred_path],
            Option.none, Option.some (PyVal.ofList res))
      else (st, w, ev1, Option.none, Option.some (PyVal.ofList res))
  else (st, w, [], Option.none, Option.some PyVal.none)

/-- `BISTModel.predict_conll`: under the guard
`hasattr(dataset, '__iter__')` the model is invoked on the in-memory
collection (raising `AttributeError` when no model is bound); a
non-iterable argument falls through and the method returns `None`. -/
def BISTModel.predict_conll (env : Env) (st : FState) (w : World)
    (dataset : PyVal) :
    FState × World × List Ev × Option Fault × Option PyVal :=
  if dataset.isIterable then
    match st.model with
    | Option.none => (st, w, [], Option.some Fault.attributeError, Option.none)
    | Option.some ModelV.pynone => (st, w, [], Option.some Fault.attributeError, Option.none)
    | Option.some (ModelV.mst _) =>
      (st, w, [Ev.predictConll], Option.none,
        Option.some (PyVal.ofList (env.predConll dataset)))
  else (st, w, [], Option.none, Option.some PyVal.none)

/-- `BISTModel.load`: under the guard
`isinstance(path, str) and os.path.isfile(path)`, open the sibling
`params.json` (raising `FileNotFoundError` when absent, a decode error
when not JSON), assign `self.params` to the decoded value, construct
`MSTParserLSTM(*self.params)` (raising `TypeError` when the decoded
value is not iterable — the assignment to `params` has already
happened) and ask the model to load the weights at `path`. -/
def BISTModel.load (env : Env) (st : FState) (w : World)
    (path : PyVal) : FState × World × List Ev × Option Fault :=
  if path.isStr && isfile w path.asStr then
    let p := path.asStr
    let pj := pathJoin (dirname p) "params.json"
    match getFile w pj with
    | Option.none => (st, w, [], Option.some Fault.fileNotFound)
    | Option.some Option.none => (st, w, [Ev.jsonRead pj], Option.some Fault.valueError)
    | Option.some (Option.some j) =>
      let newParams := jsonToPy j
      let st1 : FState :=
        { options := st.options, params := Option.some newParams, model := st.model }
      if newParams.isIterable then
        let st2 : FState :=
          { options := st.options, params := Option.some newParams,
            model := Option.some (ModelV.mst newParams) }
        (st2, w, [Ev.jsonRead pj, Ev.newModel, Ev.modelLoad p], Option.none)
      else (st1, w, [Ev.jsonRead pj], Option.some Fault.typeError)
  else (st, w, [], Option.none)

/-- `BISTModel.save`: under the guard
`isinstance(path, str) and os.path.isdir(os.path.dirname(path))`, the
sibling `params.json` is opened for writing (creating/truncating it)
and `self.params` is serialized into it — reading `self.params` raises
`AttributeError` on an unconfigured facade, after the file was already
truncated; `json.dump(None)` happily writes `null`.  Only then is
`self.model.save(path)` invoked, which raises `AttributeError` when the
`model` attribute is missing or `None`. -/
def BISTModel.save (env : Env) (st : FState) (w : World)
    (path : PyVal) : FState × World × List Ev × Option Fault :=
  if path.isStr && isdir w (dirname path.asStr) then
    let p := path.asStr
    let pj := pathJoin (dirname p) "params.json"
    match st.params with
    | Option.none =>
      (st, setFile w pj Option.none, [Ev.openWrite pj], Option.some Fault.attributeError)
    | Option.some pv =>
      let j := pyToJson pv
      let w1 := setFile w pj (Option.some j)
      let ev1 := [Ev.openWrite pj, Ev.jsonWrite pj j]
      match st.model with
      | Option.none => (st, w1, ev1, Option.some Fault.attributeError)
      | Option.some ModelV.pynone => (st, w1, ev1, Option.some Fault.attributeError)
      | Option.some (ModelV.mst _) =>
        (st, setFile w1 p Option.none, ev1 ++ [Ev.modelSave p], Option.none)
  else (st, w, [], Option.none)

/-! ## Sequences of public operations -/

/-- One public operation on the facade. -/
inductive Op where
  | fit (dataset epochs dev : PyVal)
  | predict (dataset : PyVal) (evaluate : Bool)
  | predict_conll (dataset : PyVal)
  | load (path : PyVal)
  | save (path : PyVal)

/-- Run one public operation (exceptions are assumed caught by the
caller, who continues with the facade in the state it reached). -/
def step (env : Env) (st : FState) (w : World) : Op → FState × World × List Ev × Option Fault
  | .fit d e v => BISTModel.fit env st w d e v
  | .predict d ev =>
    let r := BISTModel.predict env st w d ev
    (r.1, r.2.1, r.2.2.1, r.2.2.2.1)
  | .predict_conll d =>
    let r := BISTModel.predict_conll env st w d
    (r.1, r.2.1, r.2.2.1, r.2.2.2.1)
  | .load p => BISTModel.load env st w p
  | .save p => BISTModel.save env st w p

/-- Run a sequence of public operations. -/
def run (env : Env) (st : FState) (w : World) : List Op → FState × World
  | [] => (st, w)
  | op :: ops =>
    let r := step env st w op
    run env r.1 r.2.1 ops

/-- Operations that can (re)bind the underlying model handle. -/
def Op.touchesModel : Op → Bool
  | .fit _ _ _ => true
  | .load _ => true
  | _ => false

/-- The facade holds a bound model handle (the `model` attribute exists
and is not `None`). -/
def FState.hasModel (st : FState) : Bool :=
  match st.model with
  | Option.some (ModelV.mst _) => true
  | _ => false

/-! ## Trace observers -/

/-- Number of training passes in a trace. -/
def countTrain : List Ev → Nat
  | [] => 0
  | Ev.train _ :: r => countTrain r + 1
  | _ :: r => countTrain r

/-- The paths of the prediction files written by a trace, in order. -/
def writesOf : List Ev → List String
  | [] => []
  | Ev.writeConll p :: r => p :: writesOf r
  | _ :: r => writesOf r

/-- Every prediction-file write in the trace is immediately followed by
a run of the external evaluation routine on the gold file and the file
just written. -/
def evalAfterWrites (gold : String) : List Ev → Prop
  | [] => True
  | Ev.writeConll p :: r => r.head? = Option.some (Ev.runEval gold p) ∧ evalAfterWrites gold r
  | _ :: r => evalAfterWrites gold r

/-- The trace of `k` epochs of the `fit` loop starting after `e` epochs,
when no dev file takes part. -/
def plainEpochs (ds : String) : Nat → Nat → List Ev
  | 0, _ => []
  | k + 1, e =>
    Ev.printed ("Starting epoch " ++ toString (e + 1)) :: Ev.train ds ::
      plainEpochs ds k (e + 1)

/-- The trace of `k` epochs of the `fit` loop starting after `e` epochs,
with dev file `s` whose last dot sits at position `i`. -/
def devEpochs (ds s : String) (i : Nat) : Nat → Nat → List Ev
  | 0, _ => []
  | k + 1, e =>
    let rp := spliceAt s i ("_epoch_" ++ toString (e + 1) ++ "_pred")
    Ev.printed ("Starting epoch " ++ toString (e + 1)) :: Ev.train ds ::
      Ev.predictFile s :: Ev.writeConll rp :: Ev.runEval s rp ::
      devEpochs ds s i k (e + 1)

/-! ## A concrete environment and world for evaluating the semantics -/

/-- A concrete collaborator environment: the vocabulary sets and the
predictions are degenerate but definite values. -/
def envT : Env :=
  { vocab := fun _ => (PyVal.none, PyVal.none, PyVal.none, PyVal.none),
    predFile := fun _ => [PyVal.none],
    predConll := fun _ => [],
    numSents := fun _ => 1 }

/-- A concrete world: files `"d"` and `"a.c"` exist, directories `"m"`
and `""` exist. -/
def worldT : World :=
  { files := [("d", Option.none), ("a.c", Option.none)], dirs := ["m", ""] }

/-- A facade constructed with the default arguments. -/
def facadeT : FState :=
  BISTModel.init (.str "tanh") (.int 2) (.int 125) (.int 25)

/-! ## General lemmas -/

mutual

theorem jsonToPy_pyToJson : ∀ p : PyVal, jsonToPy (pyToJson p) = pyNorm p
  | .none => rfl
  | .bool _ => rfl
  | .int _ => rfl
  | .str _ => rfl
  | .list xs => congrArg PyVal.list (jListToPy_pyListToJson xs)
  | .tuple xs => congrArg PyVal.list (jListToPy_pyListToJson xs)
  | .dict kvs => congrArg PyVal.dict (jDictToPy_pyDictToJson kvs)

theorem jListToPy_pyListToJson : ∀ xs : PyList, jListToPy (pyListToJson xs) = pyListNorm xs
  | .nil => rfl
  | .cons x xs => by
    rw [pyListToJson, jListToPy, jsonToPy_pyToJson x, jListToPy_pyListToJson xs, pyListNorm]

theorem jDictToPy_pyDictToJson : ∀ kvs : PyDict, jDictToPy (pyDictToJson kvs) = pyDictNorm kvs
  | .nil => rfl
  | .cons k v kvs => by
    rw [pyDictToJson, jDictToPy, jsonToPy_pyToJson v, jDictToPy_pyDictToJson kvs, pyDictNorm]

end

mutual

theorem pyNorm_idem : ∀ p : PyVal, pyNorm (pyNorm p) = pyNorm p
  | .none => rfl
  | .bool _ => rfl
  | .int _ => rfl
  | .str _ => rfl
  | .list xs => congrArg PyVal.list (pyListNorm_idem xs)
  | .tuple xs => by rw [pyNorm, pyNorm, pyListNorm_idem xs]
  | .dict kvs => congrArg PyVal.dict (pyDictNorm_idem kvs)

theorem pyListNorm_idem : ∀ xs : PyList, pyListNorm (pyListNorm xs) = pyListNorm xs
  | .nil => rfl
  | .cons x xs => by rw [pyListNorm, pyListNorm, pyNorm_idem x, pyListNorm_idem xs]

theorem pyDictNorm_idem : ∀ kvs : PyDict, pyDictNorm (pyDictNorm kvs) = pyDictNorm kvs
  | .nil => rfl
  | .cons k v kvs => by rw [pyDictNorm, pyDictNorm, pyNorm_idem v, pyDictNorm_idem kvs]

end

theorem countTrain_append (a b : List Ev) :
    countTrain (a ++ b) = countTrain a + countTrain b := by
  induction a with
  | nil => simp [countTrain]
  | cons x r ih => cases x <;> simp [countTrain, ih] <;> omega

theorem writesOf_append (a b : List Ev) :
    writesOf (a ++ b) = writesOf a ++ writesOf b := by
  induction a with
  | nil => simp [writesOf]
  | cons x r ih => cases x <;> simp [writesOf, ih]

theorem fitEpochLoop_noDev (env : Env) (ds : String) (dev : PyVal) (w : World)
    (k e : Nat) (h : dev.truthy = false) :
    fitEpochLoop env ds dev w k e = (w, plainEpochs ds k e, Option.none) := by
  induction k generalizing e w with
  | zero => rfl
  | succ k ih => simp [fitEpochLoop, h, plainEpochs, ih]

theorem fitEpochLoop_dev (env : Env) (ds : String) (dev : PyVal) (w : World)
    (k e i : Nat) (ht : dev.truthy = true) (hi : rindexDot dev.asStr = Option.some i) :
    ∃ w', fitEpochLoop env ds dev w k e = (w', devEpochs ds dev.asStr i k e, Option.none) := by
  induction k generalizing e w with
  | zero => exact ⟨w, rfl⟩
  | succ k ih =>
    obtain ⟨w', hw⟩ :=
      ih (setFile w (spliceAt dev.asStr i ("_epoch_" ++ toString (e + 1) ++ "_pred"))
        Option.none) (e + 1)
    refine ⟨w', ?_⟩
    simp [fitEpochLoop, ht, hi, devEpochs, hw]

theorem countTrain_plainEpochs (ds : String) (k e : Nat) :
    countTrain (plainEpochs ds k e) = k := by
  induction k generalizing e with
  | zero => rfl
  | succ k ih => simp [plainEpochs, countTrain, ih]

theorem countTrain_devEpochs (ds s : String) (i k e : Nat) :
    countTrain (devEpochs ds s i k e) = k := by
  induction k generalizing e with
  | zero => rfl
  | succ k ih => simp [devEpochs, countTrain, ih]

theorem rindexDot_ne_nil {s : String} {i : Nat} (h : rindexDot s = Option.some i) :
    (PyVal.str s).truthy = true := by
  unfold rindexDot at h
  unfold PyVal.truthy
  cases hd : s.data with
  | nil => rw [hd] at h; simp [lastIdxOf] at h
  | cons c rest => simp [hd]

theorem predict_preserves_state (env : Env) (st : FState) (w : World)
    (d : PyVal) (e : Bool) : (BISTModel.predict env st w d e).1 = st := by
  unfold BISTModel.predict
  repeat' (first | rfl | split | dsimp only)

theorem predict_conll_preserves_state (env : Env) (st : FState) (w : World)
    (d : PyVal) : (BISTModel.predict_conll env st w d).1 = st := by
  unfold BISTModel.predict_conll
  repeat' split
  all_goals rfl

theorem save_preserves_state (env : Env) (st : FState) (w : World)
    (p : PyVal) : (BISTModel.save env st w p).1 = st := by
  unfold BISTModel.save
  repeat' split
  all_goals rfl

theorem step_preserves_state (env : Env) (st : FState) (w : World) (op : Op)
    (h : op.touchesModel = false) : (step env st w op).1 = st := by
  cases op with
  | fit d e v => simp [Op.touchesModel] at h
  | predict d e => exact predict_preserves_state env st w d e
  | predict_conll d => exact predict_conll_preserves_state env st w d
  | load p => simp [Op.touchesModel] at h
  | save p => exact save_preserves_state env st w p

theorem run_preserves_state (env : Env) (st : FState) (w : World) (ops : List Op)
    (h : ∀ op ∈ ops, op.touchesModel = false) : (run env st w ops).1 = st := by
  induction ops generalizing st w with
  | nil => rfl
  | cons op rest ih =>
    have h1 := h op (List.mem_cons_self op rest)
    have h2 : ∀ o ∈ rest, o.touchesModel = false := fun o ho => h o (List.mem_cons_of_mem op ho)
    unfold run
    dsimp only
    rw [step_preserves_state env st w op h1]
    exact ih st (step env st w op).2.1 h2

theorem init_hasModel_false (a b c d : PyVal) :
    (BISTModel.init a b c d).hasModel = false := by
  unfold BISTModel.init
  split <;> rfl

/-- A single public operation can only make the model handle appear if
it is a `fit` or `load` that reached the model-construction step, i.e.
emitted `Ev.newModel` in its trace.  Guard-failing `fit`/`load` calls,
`fit` on an unconfigured facade, `load` faulting on a missing or
non-JSON `params.json` or on a non-iterable decoded bundle, and all
`predict`/`predict_conll`/`save` calls leave an absent handle absent. -/
theorem step_hasModel (env : Env) (st : FState) (w : World) (op : Op) :
    (step env st w op).1.hasModel = true →
    st.hasModel = true ∨
      (op.touchesModel = true ∧ Ev.newModel ∈ (step env st w op).2.2.1) := by
  cases op with
  | predict d e =>
    intro h
    left
    have hst : (step env st w (Op.predict d e)).1 = st := predict_preserves_state env st w d e
    rwa [hst] at h
  | predict_conll d =>
    intro h
    left
    have hst : (step env st w (Op.predict_conll d)).1 = st :=
      predict_conll_preserves_state env st w d
    rwa [hst] at h
  | save p =>
    intro h
    left
    have hst : (step env st w (Op.save p)).1 = st := save_preserves_state env st w p
    rwa [hst] at h
  | fit d e v =>
    intro h
    by_cases hg : (d.isStr && isfile w d.asStr && e.isInt && (!v.truthy || v.isStr)) = true
    · cases hopt : st.options with
      | none =>
        left
        have hst : (step env st w (Op.fit d e v)).1 = st := by
          simp only [step, BISTModel.fit, hg, if_true, hopt]
        rwa [hst] at h
      | some opts =>
        right
        refine ⟨rfl, ?_⟩
        simp only [step, BISTModel.fit, hg, if_true, hopt]
        simp
    · left
      have hst : (step env st w (Op.fit d e v)).1 = st := by
        simp only [step, BISTModel.fit]
        rw [if_neg hg]
      rwa [hst] at h
  | load p =>
    intro h
    by_cases hg : (p.isStr && isfile w p.asStr) = true
    · cases hgf : getFile w (pathJoin (dirname p.asStr) "params.json") with
      | none =>
        left
        have hst : (step env st w (Op.load p)).1 = st := by
          simp only [step, BISTModel.load, hg, if_true, hgf]
        rwa [hst] at h
      | some c =>
        cases c with
        | none =>
          left
          have hst : (step env st w (Op.load p)).1 = st := by
            simp only [step, BISTModel.load, hg, if_true, hgf]
          rwa [hst] at h
        | some j =>
          by_cases hit : (jsonToPy j).isIterable = true
          · right
            refine ⟨rfl, ?_⟩
            simp only [step, BISTModel.load, hg, if_true, hgf, hit]
            simp
          · left
            have hst : (step env st w (Op.load p)).1.hasModel = st.hasModel := by
              simp only [step, BISTModel.load, hg, if_true, hgf]
              rw [if_neg hit]
              rfl
            rwa [hst] at h
    · left
      have hst : (step env st w (Op.load p)).1 = st := by
        simp only [step, BISTModel.load]
        rw [if_neg hg]
      rwa [hst] at h

/-- Across any sequence of public operations, a present model handle
traces back either to the initial state or to one step of the sequence
that was a `fit`/`load` reaching model construction. -/
theorem run_hasModel (env : Env) (st : FState) (w : World) (ops : List Op) :
    (run env st w ops).1.hasModel = true →
    st.hasModel = true ∨
      ∃ pre op suf, ops = pre ++ op :: suf ∧ op.touchesModel = true ∧
        Ev.newModel ∈
          (step env (run env st w pre).1 (run env st w pre).2 op).2.2.1 := by
  induction ops generalizing st w with
  | nil => intro h; left; exact h
  | cons o rest ih =>
    intro h
    have h' : (run env (step env st w o).1 (step env st w o).2.1 rest).1.hasModel = true := h
    rcases ih (step env st w o).1 (step env st w o).2.1 h' with h1 | ⟨pre, op, suf, hsplit, htm, hmem⟩
    · rcases step_hasModel env st w o h1 with h2 | ⟨htm, hmem⟩
      · left; exact h2
      · right
        exact ⟨[], o, rest, rfl, htm, hmem⟩
    · right
      refine ⟨o :: pre, op, suf, by simp [hsplit], htm, ?_⟩
      exact hmem

theorem length_foldr_cons (xs : List PyVal) :
    PyList.length (xs.foldr PyList.cons PyList.nil) = xs.length := by
  induction xs with
  | nil => rfl
  | cons x r ih => simp [List.foldr, PyList.length, ih]

/-! ## Claim theorems -/

/-- C5, counterexample.  The claim says the constructor validates the
LSTM layer count as a *positive* integer and that every argument tuple
failing that validation leaves the facade unconfigured.  At
`lstm_layers = -2` (with the other arguments at their defaults) the
validation the claim describes fails, yet the constructor configures
the facade fully: `options` is set and `params`/`model` are initialized
— a usable object, not an unconfigured one. -/
theorem init_negative_layers_configured :
    (BISTModel.init (.str "tanh") (.int (-2)) (.int 125) (.int 25)).options ≠ Option.none ∧
    (BISTModel.init (.str "tanh") (.int (-2)) (.int 125) (.int 25)).params =
      Option.some PyVal.none ∧
    (BISTModel.init (.str "tanh") (.int (-2)) (.int 125) (.int 25)).model =
      Option.some ModelV.pynone := by
  refine ⟨?_, rfl, rfl⟩
  intro h
  simp [BISTModel.init, PyVal.isStr, PyVal.isInt] at h

/-- C5, amended.  The constructor validates only the *kinds* of its four
arguments — `activation` a string, the other three integers
(`isinstance(_, int)`, with no positivity check, and booleans counting
as integers) — and exactly when that kind check fails it assigns no
attribute at all, leaving the facade provably unconfigured; when it
passes, the facade is fully configured with the options record and
`params = None`, `model = None`. -/
theorem init_kind_validation (activation lstm_layers lstm_dims pos_dims : PyVal) :
    ((activation.isStr && lstm_layers.isInt && lstm_dims.isInt && pos_dims.isInt) = true →
      BISTModel.init activation lstm_layers lstm_dims pos_dims =
        { options := Option.some (get_options_dict activation.asStr lstm_dims.asInt
            lstm_layers.asInt pos_dims.asInt),
          params := Option.some PyVal.none,
          model := Option.some ModelV.pynone }) ∧
    ((activation.isStr && lstm_layers.isInt && lstm_dims.isInt && pos_dims.isInt) = false →
      BISTModel.init activation lstm_layers lstm_dims pos_dims =
        { options := Option.none, params := Option.none, model := Option.none }) := by
  constructor <;> intro h <;> simp [BISTModel.init, h]

/-- C5, witness for the amended theorem: a well-kinded default call
configures the facade; a `None` activation leaves it unconfigured. -/
theorem init_kind_validation_witness :
    (BISTModel.init (.str "tanh") (.int 2) (.int 125) (.int 25) =
      { options := Option.some (get_options_dict "tanh" 125 2 25),
        params := Option.some PyVal.none,
        model := Option.some ModelV.pynone }) ∧
    (BISTModel.init PyVal.none (.int 2) (.int 125) (.int 25) =
      { options := Option.none, params := Option.none, model := Option.none }) :=
  ⟨(init_kind_validation (.str "tanh") (.int 2) (.int 125) (.int 25)).1 (by decide),
   (init_kind_validation PyVal.none (.int 2) (.int 125) (.int 25)).2 (by decide)⟩

/-- C8.  On a facade where no `fit`/`load` has completed (`params` and
`model` both hold Python `None`) and a path whose directory exists,
`save` first creates the sibling `params.json` and serializes the
absent bundle as JSON `null` into it, and only afterwards raises
`AttributeError` on `self.model.save` — the write precedes the fault in
the trace and the resulting filesystem holds the `null` document. -/
theorem save_writes_params_before_fault (env : Env) (st : FState) (w : World) (path : String)
    (hp : st.params = Option.some PyVal.none) (hm : st.model = Option.some ModelV.pynone)
    (hd : isdir w (dirname path) = true) :
    BISTModel.save env st w (.str path) =
      (st, setFile w (pathJoin (dirname path) "params.json") (Option.some Json.null),
        [Ev.openWrite (pathJoin (dirname path) "params.json"),
         Ev.jsonWrite (pathJoin (dirname path) "params.json") Json.null],
        Option.some Fault.attributeError) ∧
    getFile (BISTModel.save env st w (.str path)).2.1
      (pathJoin (dirname path) "params.json") = Option.some (Option.some Json.null) := by
  have h1 : BISTModel.save env st w (.str path) =
      (st, setFile w (pathJoin (dirname path) "params.json") (Option.some Json.null),
        [Ev.openWrite (pathJoin (dirname path) "params.json"),
         Ev.jsonWrite (pathJoin (dirname path) "params.json") Json.null],
        Option.some Fault.attributeError) := by
    simp [BISTModel.save, hp, hm, hd, PyVal.isStr, PyVal.asStr, pyToJson]
  refine ⟨h1, ?_⟩
  rw [h1]
  simp [getFile, setFile, lookupFile]

/-- C8, witness: the fresh default facade, world `worldT`, path
`"m/x.w"`. -/
theorem save_writes_params_before_fault_witness :
    BISTModel.save envT facadeT worldT (.str "m/x.w") =
      (facadeT, setFile worldT (pathJoin (dirname "m/x.w") "params.json")
          (Option.some Json.null),
        [Ev.openWrite (pathJoin (dirname "m/x.w") "params.json"),
         Ev.jsonWrite (pathJoin (dirname "m/x.w") "params.json") Json.null],
        Option.some Fault.attributeError) ∧
    getFile (BISTModel.save envT facadeT worldT (.str "m/x.w")).2.1
      (pathJoin (dirname "m/x.w") "params.json") = Option.some (Option.some Json.null) :=
  save_writes_params_before_fault envT facadeT worldT "m/x.w"
    (by decide) (by decide) (by decide)

/-- C6.  When the argument of `predict` is not a string naming an
existing file, the call returns Python `None` with no events — the
underlying model is not invoked and no file is written, and the facade
and filesystem are untouched; conversely any non-`None` return value
means the dataset precondition held. -/
theorem predict_guard_returns_none (env : Env) (st : FState) (w : World)
    (dataset : PyVal) (evaluate : Bool) :
    ((dataset.isStr && isfile w dataset.asStr) = false →
      BISTModel.predict env st w dataset evaluate =
        (st, w, [], Option.none, Option.some PyVal.none)) ∧
    (∀ r, (BISTModel.predict env st w dataset evaluate).2.2.2.2 = Option.some r →
      r ≠ PyVal.none → (dataset.isStr && isfile w dataset.asStr) = true) := by
  constructor
  · intro h
    simp [BISTModel.predict, h]
  · intro r hr hne
    cases hg : (dataset.isStr && isfile w dataset.asStr) with
    | true => rfl
    | false =>
      rw [show BISTModel.predict env st w dataset evaluate =
          (st, w, [], Option.none, Option.some PyVal.none) from by
        simp [BISTModel.predict, hg]] at hr
      simp at hr
      exact absurd hr.symm hne

/-- C6, witness: `predict` on the integer `3` (not a string) returns
`None` untouched; and the non-`None` result of a successful `predict`
entails the guard. -/
theorem predict_guard_returns_none_witness :
    (BISTModel.predict envT facadeT worldT (.int 3) false =
      (facadeT, worldT, [], Option.none, Option.some PyVal.none)) ∧
    ((PyVal.int 3).isStr && isfile worldT (PyVal.int 3).asStr) = false :=
  ⟨(predict_guard_returns_none envT facadeT worldT (.int 3) false).1 (by decide),
   by decide⟩

/-- C1, counterexample.  The claim's preconditions require `epochs`
non-negative and promise a silent no-op whenever they are violated; and
on satisfied preconditions (`dev` merely "a string") it promises
exactly `epochs` training passes.  Both fail: at `epochs = -1` (an
existing dataset) the guard `isinstance(epochs, int)` passes, so `fit`
is not a no-op — it rebinds the model; and at `epochs = 2` with the
dotless dev string `"nodot"` (preconditions satisfied as stated) only
one training pass happens before `rindex` raises `ValueError`. -/
theorem fit_precondition_violations_not_noop :
    (BISTModel.fit envT facadeT worldT (.str "d") (.int (-1)) PyVal.none).1.model ≠
      facadeT.model ∧
    countTrain (BISTModel.fit envT facadeT worldT (.str "d") (.int 2) (.str "nodot")).2.2.1
      = 1 ∧
    (BISTModel.fit envT facadeT worldT (.str "d") (.int 2) (.str "nodot")).2.2.2 =
      Option.some Fault.valueError := by
  decide

/-- C1, amended.  For every `fit` call on a facade holding an options
record: if the actual guard — `dataset` a string naming an existing
file, `epochs` an integer (any sign), and `dev` falsy or a string —
fails, the call is a silent no-op returning no fault; if the guard
holds and `dev` is falsy or a string containing a dot, `fit` first
derives the vocabulary sets from the training file, then constructs a
fresh underlying model bound to the stored options (both reflected in
the facade's `params`/`model` fields), and then performs exactly
`max(epochs, 0)` sequential training passes, in that order. -/
theorem fit_spec_amended (env : Env) (st : FState) (w : World)
    (dataset epochs dev : PyVal) (opts : PyVal) (hopt : st.options = Option.some opts) :
    ((dataset.isStr && isfile w dataset.asStr && epochs.isInt
        && (!dev.truthy || dev.isStr)) = false →
      BISTModel.fit env st w dataset epochs dev = (st, w, [], Option.none)) ∧
    ((dataset.isStr && isfile w dataset.asStr && epochs.isInt) = true →
      (dev.truthy = false ∨ (dev.isStr = true ∧ (rindexDot dev.asStr).isSome = true)) →
      ∃ w' tl, BISTModel.fit env st w dataset epochs dev =
        ({ options := st.options,
           params := Option.some (fitParams env dataset.asStr opts),
           model := Option.some (ModelV.mst (fitParams env dataset.asStr opts)) },
          w',
          Ev.printed ("\nRunning fit on " ++ dataset.asStr ++ "...\n") ::
            Ev.vocabCall dataset.asStr :: Ev.newModel :: tl,
          Option.none) ∧
        countTrain tl = epochs.asInt.toNat) := by
  constructor
  · intro h
    simp only [BISTModel.fit, h, Bool.false_eq_true, if_false]
  · intro hg hdev
    have h4 : (!dev.truthy || dev.isStr) = true := by
      rcases hdev with h | ⟨h, _⟩
      · simp [h]
      · simp [h]
    have hguard : (dataset.isStr && isfile w dataset.asStr && epochs.isInt
        && (!dev.truthy || dev.isStr)) = true := by simp [hg, h4]
    rcases hdev with ht | ⟨hs, hi⟩
    · refine ⟨w, plainEpochs dataset.asStr epochs.asInt.toNat 0, ?_, ?_⟩
      · simp only [BISTModel.fit, hguard, if_true, hopt]
        rw [fitEpochLoop_noDev env dataset.asStr dev w epochs.asInt.toNat 0 ht]
        rfl
      · exact countTrain_plainEpochs _ _ _
    · obtain ⟨i, hi⟩ := Option.isSome_iff_exists.mp hi
      have htruthy : dev.truthy = true := by
        cases dev <;> simp [PyVal.isStr] at hs
        exact rindexDot_ne_nil hi
      obtain ⟨w', hw⟩ := fitEpochLoop_dev env dataset.asStr dev w
        epochs.asInt.toNat 0 i htruthy hi
      refine ⟨w', devEpochs dataset.asStr dev.asStr i epochs.asInt.toNat 0, ?_, ?_⟩
      · simp only [BISTModel.fit, hguard, if_true, hopt]
        rw [hw]
        rfl
      · exact countTrain_devEpochs _ _ _ _ _

/-- C1, witness for the amended theorem: a non-string dataset is a
no-op; `fit` on the existing file `"d"` with `epochs = 2` and no dev
file trains exactly twice after deriving the vocabulary and binding the
fresh model. -/
theorem fit_spec_amended_witness :
    (BISTModel.fit envT facadeT worldT (.int 0) (.int 1) PyVal.none =
      (facadeT, worldT, [], Option.none)) ∧
    (∃ w' tl, BISTModel.fit envT facadeT worldT (.str "d") (.int 2) PyVal.none =
      ({ options := facadeT.options,
         params := Option.some (fitParams envT "d" (get_options_dict "tanh" 125 2 25)),
         model := Option.some (ModelV.mst (fitParams envT "d" (get_options_dict "tanh" 125 2 25))) },
        w',
        Ev.printed ("\nRunning fit on " ++ "d" ++ "...\n") ::
          Ev.vocabCall "d" :: Ev.newModel :: tl,
        Option.none) ∧
      countTrain tl = 2) :=
  ⟨(fit_spec_amended envT facadeT worldT (.int 0) (.int 1) PyVal.none
      (get_options_dict "tanh" 125 2 25) rfl).1 (by decide),
   (fit_spec_amended envT facadeT worldT (.str "d") (.int 2) PyVal.none
      (get_options_dict "tanh" 125 2 25) rfl).2 (by decide) (Or.inl rfl)⟩

/-- C9.  With an existing dataset file and a negative integer `epochs`,
`fit` passes its guard and is not a no-op: the vocabulary sets are
derived, the facade's `params` and `model` fields are replaced with a
freshly constructed model, but `range(epochs)` is empty, so no training
pass runs, no dev-prediction file is written, and no fault occurs. -/
theorem fit_negative_epochs (env : Env) (st : FState) (w : World)
    (dataset dev : PyVal) (n : Int) (opts : PyVal)
    (hds : dataset.isStr = true) (hf : isfile w dataset.asStr = true)
    (hn : n < 0) (hdev : (!dev.truthy || dev.isStr) = true)
    (hopt : st.options = Option.some opts) :
    BISTModel.fit env st w dataset (.int n) dev =
      ({ options := st.options,
         params := Option.some (fitParams env dataset.asStr opts),
         model := Option.some (ModelV.mst (fitParams env dataset.asStr opts)) },
        w,
        [Ev.printed ("\nRunning fit on " ++ dataset.asStr ++ "...\n"),
         Ev.vocabCall dataset.asStr, Ev.newModel],
        Option.none) := by
  have hguard : (dataset.isStr && isfile w dataset.asStr && (PyVal.int n).isInt
      && (!dev.truthy || dev.isStr)) = true := by
    rw [hds, hf, hdev]; rfl
  have hk : (PyVal.int n).asInt.toNat = 0 := by
    simp only [PyVal.asInt]; omega
  simp only [BISTModel.fit, hguard, if_true, hopt, hk, fitEpochLoop]
  rfl

/-- C2.  A `fit` call on an existing dataset with `epochs = 3` and a
dev path whose last dot sits at position `i` completes without fault,
writes exactly three dev-prediction files, named by splicing
`_epoch_1_pred`, `_epoch_2_pred`, `_epoch_3_pred` in before the
substring starting at the last dot, in epoch order, and follows every
write immediately with the external evaluation of gold vs. predicted
file. -/
theorem fit_three_epochs_dev_files (env : Env) (st : FState) (w : World)
    (ds s : String) (i : Nat) (opts : PyVal)
    (hf : isfile w ds = true) (hi : rindexDot s = Option.some i)
    (hopt : st.options = Option.some opts) :
    (BISTModel.fit env st w (.str ds) (.int 3) (.str s)).2.2.2 = Option.none ∧
    writesOf (BISTModel.fit env st w (.str ds) (.int 3) (.str s)).2.2.1 =
      [spliceAt s i "_epoch_1_pred", spliceAt s i "_epoch_2_pred",
       spliceAt s i "_epoch_3_pred"] ∧
    evalAfterWrites s (BISTModel.fit env st w (.str ds) (.int 3) (.str s)).2.2.1 := by
  have ht : (PyVal.str s).truthy = true := rindexDot_ne_nil hi
  have hguard : ((PyVal.str ds).isStr && isfile w (PyVal.str ds).asStr
      && (PyVal.int 3).isInt && (!(PyVal.str s).truthy || (PyVal.str s).isStr)) = true := by
    simp [hf, PyVal.isStr, PyVal.asStr, PyVal.isInt]
  obtain ⟨w', hw⟩ := fitEpochLoop_dev env ds (PyVal.str s) w
    ((PyVal.int 3).asInt.toNat) 0 i ht hi
  have hfit : BISTModel.fit env st w (.str ds) (.int 3) (.str s) =
      ({ options := st.options,
         params := Option.some (fitParams env ds opts),
         model := Option.some (ModelV.mst (fitParams env ds opts)) },
        w',
        [Ev.printed ("\nRunning fit on " ++ ds ++ "...\n"), Ev.vocabCall ds]
          ++ [Ev.newModel] ++ devEpochs ds s i 3 0,
        Option.none) := by
    simp only [BISTModel.fit, hguard, if_true, hopt]
    simp only [PyVal.asStr]
    rw [hw]
    rfl
  have t1 : ("_epoch_" ++ toString (1 : Nat) ++ "_pred" : String) = "_epoch_1_pred" := rfl
  have t2 : ("_epoch_" ++ toString (2 : Nat) ++ "_pred" : String) = "_epoch_2_pred" := rfl
  have t3 : ("_epoch_" ++ toString (3 : Nat) ++ "_pred" : String) = "_epoch_3_pred" := rfl
  refine ⟨by rw [hfit], ?_, ?_⟩
  · rw [hfit]
    simp only [devEpochs]
    norm_num
    rw [t1, t2, t3]
    simp [writesOf]
  · rw [hfit]
    simp only [devEpochs]
    norm_num
    simp [evalAfterWrites, List.head?]

/-- C2, witness: `fit` on dataset `"d"` with dev file `"a.c"` (last dot
at position 1). -/
theorem fit_three_epochs_dev_files_witness :
    (BISTModel.fit envT facadeT worldT (.str "d") (.int 3) (.str "a.c")).2.2.2 =
      Option.none ∧
    writesOf (BISTModel.fit envT facadeT worldT (.str "d") (.int 3) (.str "a.c")).2.2.1 =
      [spliceAt "a.c" 1 "_epoch_1_pred", spliceAt "a.c" 1 "_epoch_2_pred",
       spliceAt "a.c" 1 "_epoch_3_pred"] ∧
    evalAfterWrites "a.c"
      (BISTModel.fit envT facadeT worldT (.str "d") (.int 3) (.str "a.c")).2.2.1 :=
  fit_three_epochs_dev_files envT facadeT worldT "d" "a.c" 1
    (get_options_dict "tanh" 125 2 25) (by decide) (by decide) rfl

/-- C10.  The sibling-path derivation is partial.  In `fit`, a truthy
dev string with no dot makes `rindex` raise `ValueError` after the
first training pass has already run (and before any prediction file is
written), with the fresh model already bound.  In `predict` with
`evaluate=true`, a dotless dataset path makes `rindex` raise after
inference already ran: the model-prediction event is in the trace, no
file is written, and the computed result is lost (nothing is
returned). -/
theorem dotless_path_fault (env : Env) (st : FState) (w : World) :
    (∀ (dataset dev : PyVal) (n : Int) (opts : PyVal),
      dataset.isStr = true → isfile w dataset.asStr = true →
      dev.isStr = true → dev.truthy = true → rindexDot dev.asStr = Option.none →
      1 ≤ n → st.options = Option.some opts →
      (BISTModel.fit env st w dataset (.int n) dev).2.2.2 = Option.some Fault.valueError ∧
      countTrain (BISTModel.fit env st w dataset (.int n) dev).2.2.1 = 1 ∧
      writesOf (BISTModel.fit env st w dataset (.int n) dev).2.2.1 = [] ∧
      (BISTModel.fit env st w dataset (.int n) dev).1.hasModel = true) ∧
    (∀ (ds : String) (a : PyVal),
      isfile w ds = true → st.model = Option.some (ModelV.mst a) →
      rindexDot ds = Option.none →
      (BISTModel.predict env st w (.str ds) true).2.2.2.1 = Option.some Fault.valueError ∧
      Ev.predictFile ds ∈ (BISTModel.predict env st w (.str ds) true).2.2.1 ∧
      writesOf (BISTModel.predict env st w (.str ds) true).2.2.1 = [] ∧
      (BISTModel.predict env st w (.str ds) true).2.2.2.2 = Option.none) := by
  constructor
  · intro dataset dev n opts hds hf hs ht hdot hn hopt
    have hguard : (dataset.isStr && isfile w dataset.asStr && (PyVal.int n).isInt
        && (!dev.truthy || dev.isStr)) = true := by
      rw [hds, hf, hs]; simp [PyVal.isInt]
    have hk : ∃ k, (PyVal.int n).asInt.toNat = k + 1 := by
      refine ⟨n.toNat - 1, ?_⟩
      simp only [PyVal.asInt]
      omega
    obtain ⟨k, hk⟩ := hk
    have hloop : fitEpochLoop env dataset.asStr dev w ((PyVal.int n).asInt.toNat) 0 =
        (w, [Ev.printed ("Starting epoch " ++ toString (0 + 1)),
             Ev.train dataset.asStr], Option.some Fault.valueError) := by
      rw [hk]
      simp [fitEpochLoop, ht, hdot]
    have hfit : BISTModel.fit env st w dataset (.int n) dev =
        ({ options := st.options,
           params := Option.some (fitParams env dataset.asStr opts),
           model := Option.some (ModelV.mst (fitParams env dataset.asStr opts)) },
          w,
          [Ev.printed ("\nRunning fit on " ++ dataset.asStr ++ "...\n"),
           Ev.vocabCall dataset.asStr, Ev.newModel,
           Ev.printed ("Starting epoch " ++ toString (0 + 1)), Ev.train dataset.asStr],
          Option.some Fault.valueError) := by
      simp only [BISTModel.fit, hguard, if_true, hopt]
      rw [hloop]
      rfl
    rw [hfit]
    refine ⟨rfl, ?_, ?_, rfl⟩
    · simp [countTrain]
    · simp [writesOf]
  · intro ds a hf hm hdot
    have hpred : BISTModel.predict env st w (.str ds) true =
        (st, w, [Ev.printed ("\nRunning predict on " ++ ds ++ "...\n"),
          Ev.predictFile ds], Option.some Fault.valueError, Option.none) := by
      simp only [BISTModel.predict, PyVal.isStr, PyVal.asStr, hf, Bool.true_and,
        if_true, hm, hdot]
      rfl
    rw [hpred]
    refine ⟨rfl, ?_, ?_, rfl⟩
    · simp
    · simp [writesOf]

/-- C10, witness: the facade trained once on `"d"` then hit with a
dotless dev path `"nodot"`, and `predict` with `evaluate=true` on the
dotless existing path `"d"`. -/
theorem dotless_path_fault_witness :
    ((BISTModel.fit envT
        (BISTModel.fit envT facadeT worldT (.str "d") (.int 0) PyVal.none).1 worldT
        (.str "d") (.int 1) (.str "nodot")).2.2.2 = Option.some Fault.valueError ∧
      countTrain (BISTModel.fit envT
        (BISTModel.fit envT facadeT worldT (.str "d") (.int 0) PyVal.none).1 worldT
        (.str "d") (.int 1) (.str "nodot")).2.2.1 = 1 ∧
      writesOf (BISTModel.fit envT
        (BISTModel.fit envT facadeT worldT (.str "d") (.int 0) PyVal.none).1 worldT
        (.str "d") (.int 1) (.str "nodot")).2.2.1 = [] ∧
      (BISTModel.fit envT
        (BISTModel.fit envT facadeT worldT (.str "d") (.int 0) PyVal.none).1 worldT
        (.str "d") (.int 1) (.str "nodot")).1.hasModel = true) ∧
    ((BISTModel.predict envT
        (BISTModel.fit envT facadeT worldT (.str "d") (.int 0) PyVal.none).1 worldT
        (.str "d") true).2.2.2.1 = Option.some Fault.valueError ∧
      Ev.predictFile "d" ∈ (BISTModel.predict envT
        (BISTModel.fit envT facadeT worldT (.str "d") (.int 0) PyVal.none).1 worldT
        (.str "d") true).2.2.1 ∧
      writesOf (BISTModel.predict envT
        (BISTModel.fit envT facadeT worldT (.str "d") (.int 0) PyVal.none).1 worldT
        (.str "d") true).2.2.1 = [] ∧
      (BISTModel.predict envT
        (BISTModel.fit envT facadeT worldT (.str "d") (.int 0) PyVal.none).1 worldT
        (.str "d") true).2.2.2.2 = Option.none) :=
  ⟨(dotless_path_fault envT
      (BISTModel.fit envT facadeT worldT (.str "d") (.int 0) PyVal.none).1 worldT).1
    (.str "d") (.str "nodot") 1 (get_options_dict "tanh" 125 2 25)
    (by decide) (by decide) (by decide) (by decide) (by decide) (by decide) (by decide),
   (dotless_path_fault envT
      (BISTModel.fit envT facadeT worldT (.str "d") (.int 0) PyVal.none).1 worldT).2
    "d" (fitParams envT "d" (get_options_dict "tanh" 125 2 25))
    (by decide) (by decide) (by decide)⟩

/-- C4, counterexample.  Two parts of the claimed invariant fail on the
code.  (1) A `fit` call on dataset `"d"` with the dotless dev path
`"nodot"` raises mid-call (it does not run to completion), yet the
model handle is already bound afterwards — so the handle can be present
without any `fit`/`load` having *successfully completed*.  (2) A
`predict` call made while the handle is absent but with a non-string
dataset is guarded by the facade and returns the defined result `None`
with no fault — not an unhandled runtime fault. -/
theorem model_handle_mid_fault :
    (BISTModel.fit envT facadeT worldT (.str "d") (.int 1) (.str "nodot")).2.2.2 ≠
      Option.none ∧
    (BISTModel.fit envT facadeT worldT (.str "d") (.int 1) (.str "nodot")).1.hasModel =
      true ∧
    facadeT.hasModel = false ∧
    (BISTModel.predict envT facadeT worldT (.int 3) false).2.2.2.1 = Option.none ∧
    (BISTModel.predict envT facadeT worldT (.int 3) false).2.2.2.2 =
      Option.some PyVal.none := by
  decide

/-- C4, amended.  Invariant over all facade states reachable by any
sequence of public operations from any constructor call: the model
handle is absent until some `fit` or `load` step of the sequence has
passed its guard and reached the model-construction step (emitted
`Ev.newModel`; such a call may still fault later and leave the handle
bound) — so whenever the handle is present, the sequence decomposes
around such a step; and while the handle is absent, a `predict`
(resp. `predict_conll`) call whose own input guard passes — an existing
file path (resp. an iterable) — is not guarded against the missing
model and raises `AttributeError` instead of returning a result, while
a call whose input guard fails returns Python `None` as usual, with no
fault, no event and untouched state. -/
theorem model_handle_invariant (env : Env) :
    (∀ (a b c d : PyVal) (w : World) (ops : List Op),
      (run env (BISTModel.init a b c d) w ops).1.hasModel = true →
      ∃ pre op suf, ops = pre ++ op :: suf ∧ op.touchesModel = true ∧
        Ev.newModel ∈ (step env (run env (BISTModel.init a b c d) w pre).1
          (run env (BISTModel.init a b c d) w pre).2 op).2.2.1) ∧
    (∀ (st : FState) (w : World) (dataset : PyVal) (evaluate : Bool),
      st.hasModel = false → (dataset.isStr && isfile w dataset.asStr) = true →
      (BISTModel.predict env st w dataset evaluate).2.2.2.1 =
        Option.some Fault.attributeError ∧
      (BISTModel.predict env st w dataset evaluate).2.2.2.2 = Option.none) ∧
    (∀ (st : FState) (w : World) (dataset : PyVal),
      st.hasModel = false → dataset.isIterable = true →
      (BISTModel.predict_conll env st w dataset).2.2.2.1 =
        Option.some Fault.attributeError ∧
      (BISTModel.predict_conll env st w dataset).2.2.2.2 = Option.none) ∧
    (∀ (st : FState) (w : World) (dataset : PyVal) (evaluate : Bool),
      st.hasModel = false → (dataset.isStr && isfile w dataset.asStr) = false →
      BISTModel.predict env st w dataset evaluate =
        (st, w, [], Option.none, Option.some PyVal.none)) ∧
    (∀ (st : FState) (w : World) (dataset : PyVal),
      st.hasModel = false → dataset.isIterable = false →
      BISTModel.predict_conll env st w dataset =
        (st, w, [], Option.none, Option.some PyVal.none)) := by
  refine ⟨?_, ?_, ?_, ?_, ?_⟩
  · intro a b c d w ops h
    rcases run_hasModel env (BISTModel.init a b c d) w ops h with h1 | hex
    · rw [init_hasModel_false a b c d] at h1
      cases h1
    · exact hex
  · intro st w dataset evaluate hnm hg
    unfold FState.hasModel at hnm
    unfold BISTModel.predict
    rw [hg]
    simp only [if_true]
    cases hm : st.model with
    | none => exact ⟨rfl, rfl⟩
    | some m =>
      cases m with
      | pynone => exact ⟨rfl, rfl⟩
      | mst args => rw [hm] at hnm; simp at hnm
  · intro st w dataset hnm hg
    unfold FState.hasModel at hnm
    unfold BISTModel.predict_conll
    rw [hg]
    simp only [if_true]
    cases hm : st.model with
    | none => exact ⟨rfl, rfl⟩
    | some m =>
      cases m with
      | pynone => exact ⟨rfl, rfl⟩
      | mst args => rw [hm] at hnm; simp at hnm
  · intro st w dataset evaluate hnm hg
    simp only [BISTModel.predict, hg, Bool.false_eq_true, if_false]
  · intro st w dataset hnm hg
    simp only [BISTModel.predict_conll, hg, Bool.false_eq_true, if_false]

/-- C4, witness for the amended invariant: a sequence whose `fit` binds
the handle decomposes around that fit step, which emitted the
model-construction event; `predict` on the existing file `"a.c"` and
`predict_conll` on an empty list, both before any `fit`/`load`, raise
`AttributeError` with no result; `predict` and `predict_conll` on the
integer `3` (failing their input guards) return `None` untouched while
the handle is absent. -/
theorem model_handle_invariant_witness :
    (∃ pre op suf,
      [Op.fit (.str "d") (.int 0) PyVal.none] = pre ++ op :: suf ∧
      op.touchesModel = true ∧
      Ev.newModel ∈ (step envT
        (run envT (BISTModel.init (.str "tanh") (.int 2) (.int 125) (.int 25))
          worldT pre).1
        (run envT (BISTModel.init (.str "tanh") (.int 2) (.int 125) (.int 25))
          worldT pre).2 op).2.2.1) ∧
    ((BISTModel.predict envT facadeT worldT (.str "a.c") false).2.2.2.1 =
      Option.some Fault.attributeError ∧
     (BISTModel.predict envT facadeT worldT (.str "a.c") false).2.2.2.2 =
      Option.none) ∧
    ((BISTModel.predict_conll envT facadeT worldT (.list .nil)).2.2.2.1 =
      Option.some Fault.attributeError ∧
     (BISTModel.predict_conll envT facadeT worldT (.list .nil)).2.2.2.2 =
      Option.none) ∧
    (BISTModel.predict envT facadeT worldT (.int 3) true =
      (facadeT, worldT, [], Option.none, Option.some PyVal.none)) ∧
    (BISTModel.predict_conll envT facadeT worldT (.int 3) =
      (facadeT, worldT, [], Option.none, Option.some PyVal.none)) :=
  ⟨(model_handle_invariant envT).1 (.str "tanh") (.int 2) (.int 125) (.int 25) worldT
      [Op.fit (.str "d") (.int 0) PyVal.none] (by decide),
   (model_handle_invariant envT).2.1 facadeT worldT (.str "a.c") false
      (by decide) (by decide),
   (model_handle_invariant envT).2.2.1 facadeT worldT (.list .nil)
      (by decide) (by decide),
   (model_handle_invariant envT).2.2.2.1 facadeT worldT (.int 3) true
      (by decide) (by decide),
   (model_handle_invariant envT).2.2.2.2 facadeT worldT (.int 3)
      (by decide) (by decide)⟩

/-- C7.  `predict(dataset, evaluate=true)` on an existing file whose
path has its last dot at position `i`, with a model bound: exactly one
prediction file is written, at the path spliced with `_pred` before the
last-dot suffix; the external evaluation runs right after the write,
against the original file; and the returned value is the model's
prediction list for the file — one entry per input sentence, in input
order, under the collaborator contract that the underlying parser
yields one parsed sentence per input sentence (`numSents`). -/
theorem predict_evaluate_spec (env : Env) (st : FState) (w : World)
    (ds : String) (i : Nat) (a : PyVal)
    (hf : isfile w ds = true) (hi : rindexDot ds = Option.some i)
    (hm : st.model = Option.some (ModelV.mst a))
    (hn : (env.predFile ds).length = env.numSents ds) :
    (BISTModel.predict env st w (.str ds) true).2.2.2.1 = Option.none ∧
    writesOf (BISTModel.predict env st w (.str ds) true).2.2.1 =
      [spliceAt ds i "_pred"] ∧
    evalAfterWrites ds (BISTModel.predict env st w (.str ds) true).2.2.1 ∧
    (BISTModel.predict env st w (.str ds) true).2.2.2.2 =
      Option.some (PyVal.ofList (env.predFile ds)) ∧
    (∃ l, PyVal.ofList (env.predFile ds) = PyVal.list l ∧
      l.length = env.numSents ds) := by
  have hpred : BISTModel.predict env st w (.str ds) true =
      (st, setFile w (spliceAt ds i "_pred") Option.none,
        [Ev.printed ("\nRunning predict on " ++ ds ++ "...\n"), Ev.predictFile ds,
         Ev.writeConll (spliceAt ds i "_pred"), Ev.runEval ds (spliceAt ds i "_pred")],
        Option.none, Option.some (PyVal.ofList (env.predFile ds))) := by
    simp only [BISTModel.predict, PyVal.isStr, PyVal.asStr, hf, Bool.true_and,
      if_true, hm, hi]
    rfl
  rw [hpred]
  refine ⟨rfl, by simp [writesOf], by simp [evalAfterWrites], rfl, ?_⟩
  exact ⟨(env.predFile ds).foldr PyList.cons PyList.nil, rfl,
    by rw [length_foldr_cons, hn]⟩

/-- C7, witness: `predict` with evaluation on `"a.c"` after a `fit`,
with the degenerate one-sentence collaborator. -/
theorem predict_evaluate_spec_witness :
    ((BISTModel.predict envT
        (BISTModel.fit envT facadeT worldT (.str "d") (.int 0) PyVal.none).1 worldT
        (.str "a.c") true).2.2.2.1 = Option.none ∧
      writesOf (BISTModel.predict envT
        (BISTModel.fit envT facadeT worldT (.str "d") (.int 0) PyVal.none).1 worldT
        (.str "a.c") true).2.2.1 = [spliceAt "a.c" 1 "_pred"] ∧
      evalAfterWrites "a.c" (BISTModel.predict envT
        (BISTModel.fit envT facadeT worldT (.str "d") (.int 0) PyVal.none).1 worldT
        (.str "a.c") true).2.2.1 ∧
      (BISTModel.predict envT
        (BISTModel.fit envT facadeT worldT (.str "d") (.int 0) PyVal.none).1 worldT
        (.str "a.c") true).2.2.2.2 =
        Option.some (PyVal.ofList (envT.predFile "a.c")) ∧
      (∃ l, PyVal.ofList (envT.predFile "a.c") = PyVal.list l ∧
        l.length = envT.numSents "a.c")) :=
  predict_evaluate_spec envT
    (BISTModel.fit envT facadeT worldT (.str "d") (.int 0) PyVal.none).1 worldT
    "a.c" 1 (fitParams envT "d" (get_options_dict "tanh" 125 2 25))
    (by decide) (by decide) (by decide) (by decide)

/-- C3.  For a facade holding a parameter bundle (the params tuple)
and a bound model, `save(path)` to a path with an existing directory
(and not itself named `params.json`) completes, and `load(path)` on a
fresh facade then reads the sibling `params.json` back and reproduces
an equivalent parameter bundle: the loaded `params` field is the JSON
round-trip of the saved one, equivalent modulo the tuple/list
distinction the serialization erases. -/
theorem save_load_roundtrip (env : Env) (st1 st2 : FState) (w : World) (path : String)
    (xs : PyList) (a : PyVal)
    (hp : st1.params = Option.some (PyVal.tuple xs))
    (hm : st1.model = Option.some (ModelV.mst a))
    (hd : isdir w (dirname path) = true)
    (hne : path ≠ pathJoin (dirname path) "params.json") :
    (BISTModel.save env st1 w (.str path)).2.2.2 = Option.none ∧
    (BISTModel.load env st2 (BISTModel.save env st1 w (.str path)).2.1
      (.str path)).2.2.2 = Option.none ∧
    (∃ q, (BISTModel.load env st2 (BISTModel.save env st1 w (.str path)).2.1
        (.str path)).1.params = Option.some q ∧ pyEquiv q (PyVal.tuple xs)) := by
  have hsave : BISTModel.save env st1 w (.str path) =
      (st1, setFile (setFile w (pathJoin (dirname path) "params.json")
          (Option.some (pyToJson (PyVal.tuple xs)))) path Option.none,
        [Ev.openWrite (pathJoin (dirname path) "params.json"),
         Ev.jsonWrite (pathJoin (dirname path) "params.json") (pyToJson (PyVal.tuple xs)),
         Ev.modelSave path],
        Option.none) := by
    simp only [BISTModel.save, PyVal.isStr, PyVal.asStr, hd, Bool.true_and,
      if_true, hp, hm]
    rfl
  have hisfile : isfile (setFile (setFile w (pathJoin (dirname path) "params.json")
      (Option.some (pyToJson (PyVal.tuple xs)))) path Option.none) path = true := by
    simp [isfile, getFile, setFile, lookupFile]
  have hpj : getFile (setFile (setFile w (pathJoin (dirname path) "params.json")
      (Option.some (pyToJson (PyVal.tuple xs)))) path Option.none)
      (pathJoin (dirname path) "params.json") =
      Option.some (Option.some (pyToJson (PyVal.tuple xs))) := by
    simp [getFile, setFile, lookupFile, hne]
  have hit : (jsonToPy (pyToJson (PyVal.tuple xs))).isIterable = true := by
    rw [jsonToPy_pyToJson]
    rfl
  have hload : BISTModel.load env st2
      (BISTModel.save env st1 w (.str path)).2.1 (.str path) =
      ({ options := st2.options,
         params := Option.some (jsonToPy (pyToJson (PyVal.tuple xs))),
         model := Option.some (ModelV.mst (jsonToPy (pyToJson (PyVal.tuple xs)))) },
        (BISTModel.save env st1 w (.str path)).2.1,
        [Ev.jsonRead (pathJoin (dirname path) "params.json"), Ev.newModel,
         Ev.modelLoad path],
        Option.none) := by
    rw [hsave]
    simp only [BISTModel.load, PyVal.isStr, PyVal.asStr, hisfile, Bool.true_and,
      if_true, hpj, hit]
  refine ⟨by rw [hsave], by rw [hload], ?_⟩
  refine ⟨jsonToPy (pyToJson (PyVal.tuple xs)), by rw [hload], ?_⟩
  unfold pyEquiv
  rw [jsonToPy_pyToJson]
  exact pyNorm_idem (PyVal.tuple xs)

/-- C3, witness: save the trained facade's bundle to `"m/x.w"` and load
it back into a fresh default facade. -/
theorem save_load_roundtrip_witness :
    (BISTModel.save envT
      (BISTModel.fit envT facadeT worldT (.str "d") (.int 0) PyVal.none).1 worldT
      (.str "m/x.w")).2.2.2 = Option.none ∧
    (BISTModel.load envT facadeT (BISTModel.save envT
      (BISTModel.fit envT facadeT worldT (.str "d") (.int 0) PyVal.none).1 worldT
      (.str "m/x.w")).2.1 (.str "m/x.w")).2.2.2 = Option.none ∧
    (∃ q, (BISTModel.load envT facadeT (BISTModel.save envT
        (BISTModel.fit envT facadeT worldT (.str "d") (.int 0) PyVal.none).1 worldT
        (.str "m/x.w")).2.1 (.str "m/x.w")).1.params = Option.some q ∧
      pyEquiv q (PyVal.tuple (.cons PyVal.none (.cons PyVal.none (.cons PyVal.none
        (.cons PyVal.none (.cons (get_options_dict "tanh" 125 2 25) .nil))))))) :=
  save_load_roundtrip envT
    (BISTModel.fit envT facadeT worldT (.str "d") (.int 0) PyVal.none).1 facadeT worldT
    "m/x.w"
    (.cons PyVal.none (.cons PyVal.none (.cons PyVal.none
      (.cons PyVal.none (.cons (get_options_dict "tanh" 125 2 25) .nil)))))
    (fitParams envT "d" (get_options_dict "tanh" 125 2 25))
    (by decide) (by decide) (by decide) (by decide)

/-- C9, witness: `fit` on `"d"` with `epochs = -1`. -/
theorem fit_negative_epochs_witness :
    BISTModel.fit envT facadeT worldT (.str "d") (.int (-1)) PyVal.none =
      ({ options := facadeT.options,
         params := Option.some (fitParams envT "d" (get_options_dict "tanh" 125 2 25)),
         model := Option.some (ModelV.mst (fitParams envT "d" (get_options_dict "tanh" 125 2 25))) },
        worldT,
        [Ev.printed ("\nRunning fit on " ++ "d" ++ "...\n"),
         Ev.vocabCall "d", Ev.newModel],
        Option.none) :=
  fit_negative_epochs envT facadeT worldT (.str "d") PyVal.none (-1)
    (get_options_dict "tanh" 125 2 25) (by decide) (by decide) (by decide) (by decide) rfl
